import Mathlib

/-!
# Verification of the nexus reflection fork-script

A shallow embedding of `src/lib/reflection/fork-script.ts`, the child-process
entry point of the development-time reflection mechanism.  External
collaborators (the app runner factory, the plugin loader, the artifact
writer, the error serializer, the stage selector and the IPC transport) are
modelled by their observable outcomes, collected in a `World` record; the
orchestration logic of `run` is translated statement by statement.  A run
produces a `Trace` recording every message sent over the channel (in order),
every app-runner construction, every artifact-writer invocation, every
stage check evaluated, and whether the process ended normally or with an
unrecovered (fatal) failure.
-/

set_option autoImplicit false

namespace Nexus

/-- A JavaScript `Error` value: name, message and stack. -/
structure Err where
  name : String
  message : String
  stack : String
deriving DecidableEq, Repr

/-- Modelled from the spec: `SerializedError` (spec section 3) is a plain
structure capturing name, message and stack trace of a failure, safe to
transmit over the channel.  The `serialize-error` package is an external
collaborator; the spec (section 4.4) requires it to preserve a
human-readable message and, where available, a stack trace. -/
structure SerializedError where
  name : String
  message : String
  stack : String
deriving DecidableEq, Repr

/-- Modelled from the spec: the Error Serializer (spec section 4.4), a total
function from failure values to plain `SerializedError` data. -/
def serializeError (e : Err) : SerializedError :=
  { name := e.name, message := e.message, stack := e.stack }

/-- The deserialized Layout Descriptor.  Opaque to this subsystem
(spec section 3); only its identity matters here. -/
structure Layout where
  data : String
deriving DecidableEq, Repr

/-- A plugin descriptor as found in `app.private.state.plugins`. -/
structure PluginEntry where
  name : String
deriving DecidableEq, Repr

/-- A runtime plugin after `Plugin.importAndLoadRuntimePlugins`. -/
structure LoadedPlugin where
  name : String
deriving DecidableEq, Repr

/-- The slice of the application instance that `run` reads:
`app.private.state.plugins`, `app.private.state.schemaComponent.schema`
and `app.settings.current.schema`.  Schema and settings are opaque. -/
structure App where
  plugins : List PluginEntry
  schema : String
  schemaSettings : String
deriving DecidableEq, Repr

/-- The `Message` tagged union of `reflect.ts`:
`success-plugin { plugins }`, `success-typegen` (no payload) and
`error { serializedError }`. -/
inductive Message where
  | successPlugin (plugins : List PluginEntry)
  | successTypegen
  | error (serializedError : SerializedError)
deriving DecidableEq, Repr

/-- `true` exactly on the `error` variant. -/
def Message.isError : Message → Bool
  | .error _ => true
  | _ => false

/-- `true` exactly on the `success-plugin` variant. -/
def Message.isSuccessPlugin : Message → Bool
  | .successPlugin _ => true
  | _ => false

/-- `true` exactly on the `success-typegen` variant. -/
def Message.isSuccessTypegen : Message → Bool
  | .successTypegen => true
  | _ => false

/-- The argument record of `createDevAppRunner(layout, app, opts)`:
the layout, the application instance and the `catchUnhandledErrors`
directive. -/
structure RunnerConfig where
  layout : Layout
  app : App
  catchUnhandledErrors : Bool
deriving DecidableEq, Repr

/-- The argument record of `writeArtifacts({ graphqlSchema, layout,
schemaSettings, plugins })`. -/
structure WriteArtifactsArgs where
  graphqlSchema : String
  layout : Layout
  schemaSettings : String
  plugins : List LoadedPlugin
deriving DecidableEq, Repr

/-- One invocation's environment: the ambient configuration plus the
behaviour of every external collaborator, each modelled by its outcome.
`layoutEnv` is `process.env.NEXUS_REFLECTION_LAYOUT`; `parsedLayout` is the
result of `JSON.parse` followed by `Layout.createFromData` on that value
(`Except.error` models a throw); `stage` is the ambient reflection stage
read by the Stage Selector; `startThrows` is `appRunner.start()`'s outcome;
`loadResult` is `Plugin.importAndLoadRuntimePlugins`' outcome;
`writeThrows` is `writeArtifacts`' outcome; `processSendAvailable` is
whether `process.send` is defined. -/
structure World where
  layoutEnv : Option String
  parsedLayout : Except Err Layout
  stage : Option String
  startThrows : Option Err
  app : App
  loadResult : Except Err (List LoadedPlugin)
  writeThrows : Option Err
  processSendAvailable : Bool
deriving Repr

/-- Modelled from the spec: `isReflectionStage` lives in
`src/lib/reflection/stage.ts`, which is not part of the sources; the spec
(section 4.1) specifies it as a pure predicate over ambient process-level
configuration returning whether the currently active stage equals the
candidate, with every call returning `false` when the ambient value names
no stage of the closed set. -/
def isReflectionStage (w : World) (candidate : String) : Bool :=
  w.stage == some candidate

/-- The `Error` thrown by `sendDataToParent` when `process.send` is
undefined. -/
def sendUnavailableError : Err :=
  { name := "Error"
    message := "process.send is undefined, could not send the plugins back to the main process"
    stack := "" }

/-- The `Error` thrown by `run` when `process.env.NEXUS_REFLECTION_LAYOUT`
is absent. -/
def layoutRequiredError : Err :=
  { name := "Error"
    message := "process.env.NEXUS_REFLECTION_LAYOUT is required"
    stack := "" }

/-- `sendDataToParent(message)`: throws `sendUnavailableError` when
`process.send` is undefined, otherwise appends exactly the given message to
the channel (represented as the list of messages sent so far). -/
def sendDataToParent (sendAvailable : Bool) (sent : List Message) (message : Message) :
    Except Err (List Message) :=
  if sendAvailable then
    Except.ok (sent ++ [message])
  else
    Except.error sendUnavailableError

/-- `sendErrorToParent(err)`: sends an `error` message carrying the
serialized failure via `sendDataToParent`. -/
def sendErrorToParent (sendAvailable : Bool) (sent : List Message) (err : Err) :
    Except Err (List Message) :=
  sendDataToParent sendAvailable sent (Message.error (serializeError err))

/-- The observable outcome of one invocation of `run`: the messages sent
over the channel in order, the `createDevAppRunner` calls, the number of
`appRunner.start()` invocations, the `writeArtifacts` calls, the stage
candidates tested by `isReflectionStage` in order, and either normal
completion or the fatal (unrecovered) failure the invocation ended with. -/
structure Trace where
  sent : List Message
  runnerCalls : List RunnerConfig
  startCalls : Nat
  writeCalls : List WriteArtifactsArgs
  stageChecks : List String
  outcome : Except Err Unit
deriving Repr

/-- The failure thrown by the typegen stage work, if any: the plugin-load
outcome is forced first (it is an argument of the `writeArtifacts` call),
so a load failure preempts the write, and otherwise the write's own
outcome decides. -/
def stageWorkThrows (load : Except Err (List LoadedPlugin)) (wt : Option Err) : Option Err :=
  match load with
  | Except.error e => some e
  | Except.ok _ => wt

/-- The `run` function of `fork-script.ts`, statement by statement:
require `NEXUS_REFLECTION_LAYOUT` (throw if absent), deserialize the
layout (a parse failure propagates fatally), construct the app runner with
`catchUnhandledErrors: false`, try `appRunner.start()` and on failure
send an `error` message (note: the catch does not return), then branch on
`isReflectionStage('plugin')` and `isReflectionStage('typegen')`.  The
plugin branch sends `success-plugin` with `app.private.state.plugins` and
returns; the typegen branch loads runtime plugins, calls `writeArtifacts`
and sends `success-typegen` inside a try whose catch sends an `error`
message; if neither stage matches nothing further happens. -/
def run (w : World) : Trace :=
  match w.layoutEnv with
  | none =>
    { sent := [], runnerCalls := [], startCalls := 0, writeCalls := [], stageChecks := []
      outcome := Except.error layoutRequiredError }
  | some _ =>
    match w.parsedLayout with
    | Except.error e =>
      { sent := [], runnerCalls := [], startCalls := 0, writeCalls := [], stageChecks := []
        outcome := Except.error e }
    | Except.ok layout =>
      let rc : List RunnerConfig :=
        [{ layout := layout, app := w.app, catchUnhandledErrors := false }]
      match
        (match w.startThrows with
         | none => Except.ok []
         | some err => sendErrorToParent w.processSendAvailable [] err) with
      | Except.error e =>
        { sent := [], runnerCalls := rc, startCalls := 1, writeCalls := [], stageChecks := []
          outcome := Except.error e }
      | Except.ok sent1 =>
        if isReflectionStage w "plugin" then
          match sendDataToParent w.processSendAvailable sent1
              (Message.successPlugin w.app.plugins) with
          | Except.error e =>
            { sent := sent1, runnerCalls := rc, startCalls := 1, writeCalls := []
              stageChecks := ["plugin"], outcome := Except.error e }
          | Except.ok sent2 =>
            { sent := sent2, runnerCalls := rc, startCalls := 1, writeCalls := []
              stageChecks := ["plugin"], outcome := Except.ok () }
        else if isReflectionStage w "typegen" then
          match w.loadResult with
          | Except.error e =>
            match sendErrorToParent w.processSendAvailable sent1 e with
            | Except.error e2 =>
              { sent := sent1, runnerCalls := rc, startCalls := 1, writeCalls := []
                stageChecks := ["plugin", "typegen"], outcome := Except.error e2 }
            | Except.ok sent2 =>
              { sent := sent2, runnerCalls := rc, startCalls := 1, writeCalls := []
                stageChecks := ["plugin", "typegen"], outcome := Except.ok () }
          | Except.ok loaded =>
            let args : WriteArtifactsArgs :=
              { graphqlSchema := w.app.schema, layout := layout
                schemaSettings := w.app.schemaSettings, plugins := loaded }
            match w.writeThrows with
            | some e =>
              match sendErrorToParent w.processSendAvailable sent1 e with
              | Except.error e2 =>
                { sent := sent1, runnerCalls := rc, startCalls := 1, writeCalls := [args]
                  stageChecks := ["plugin", "typegen"], outcome := Except.error e2 }
              | Except.ok sent2 =>
                { sent := sent2, runnerCalls := rc, startCalls := 1, writeCalls := [args]
                  stageChecks := ["plugin", "typegen"], outcome := Except.ok () }
            | none =>
              match sendDataToParent w.processSendAvailable sent1 Message.successTypegen with
              | Except.error eSend =>
                match sendErrorToParent w.processSendAvailable sent1 eSend with
                | Except.error e2 =>
                  { sent := sent1, runnerCalls := rc, startCalls := 1, writeCalls := [args]
                    stageChecks := ["plugin", "typegen"], outcome := Except.error e2 }
                | Except.ok sent2 =>
                  { sent := sent2, runnerCalls := rc, startCalls := 1, writeCalls := [args]
                    stageChecks := ["plugin", "typegen"], outcome := Except.ok () }
              | Except.ok sent2 =>
                { sent := sent2, runnerCalls := rc, startCalls := 1, writeCalls := [args]
                  stageChecks := ["plugin", "typegen"], outcome := Except.ok () }
        else
          { sent := sent1, runnerCalls := rc, startCalls := 1, writeCalls := []
            stageChecks := ["plugin", "typegen"], outcome := Except.ok () }

/-- Claim C3: if `NEXUS_REFLECTION_LAYOUT` is absent, `run` fails by
throwing the required-layout error before constructing the app runner
(no `createDevAppRunner` call), before starting the app (no `start` call)
and before any message is sent over the channel; the failure is fatal, not
reported through the channel. -/
theorem run_missing_layout_is_fatal_and_silent (pl : Except Err Layout)
    (stage : Option String) (st : Option Err) (app : App)
    (load : Except Err (List LoadedPlugin)) (wt : Option Err) (sendA : Bool) :
    run ⟨none, pl, stage, st, app, load, wt, sendA⟩ =
      ⟨[], [], 0, [], [], Except.error layoutRequiredError⟩ :=
  rfl

/-- Claim C4: with a present, parsed layout, active stage `plugin`, a
non-throwing start and an available transport, `run` sends exactly one
message, the `success-plugin` message whose payload is the application's
plugin registry snapshot, and the `typegen` stage check is never evaluated
(the stage checks performed are exactly `["plugin"]`). -/
theorem run_plugin_stage_success (raw : String) (layout : Layout) (app : App)
    (load : Except Err (List LoadedPlugin)) (wt : Option Err) :
    (run ⟨some raw, Except.ok layout, some "plugin", none, app, load, wt, true⟩).sent
        = [Message.successPlugin app.plugins] ∧
      (run ⟨some raw, Except.ok layout, some "plugin", none, app, load, wt, true⟩).stageChecks
        = ["plugin"] :=
  ⟨rfl, rfl⟩

/-- Claim C5: with a present, parsed layout, active stage `typegen`, a
non-throwing start, runtime plugins that import and load, a
`writeArtifacts` call that does not throw and an available transport,
`run` sends exactly one message, the payload-free `success-typegen`
message, and `writeArtifacts` is called exactly once with the app's
resolved schema, the layout, the current schema settings and the loaded
runtime plugin list. -/
theorem run_typegen_stage_success (raw : String) (layout : Layout) (app : App)
    (loaded : List LoadedPlugin) :
    (run ⟨some raw, Except.ok layout, some "typegen", none, app,
        Except.ok loaded, none, true⟩).sent = [Message.successTypegen] ∧
      (run ⟨some raw, Except.ok layout, some "typegen", none, app,
          Except.ok loaded, none, true⟩).writeCalls
        = [⟨app.schema, layout, app.schemaSettings, loaded⟩] :=
  ⟨rfl, rfl⟩

/-- Claim C8: `sendDataToParent` throws the transport-unavailable error,
without delivering anything, when `process.send` is undefined, and
otherwise delivers exactly the given message (the channel grows by exactly
that one message). -/
theorem sendDataToParent_contract (sent : List Message) (m : Message) :
    sendDataToParent false sent m = Except.error sendUnavailableError ∧
      sendDataToParent true sent m = Except.ok (sent ++ [m]) :=
  ⟨rfl, rfl⟩

/-- Claim C9: with a present, parseable layout, `run` constructs the app
runner exactly once, configured with the deserialized layout, the
dynamically obtained application instance, and `catchUnhandledErrors`
set to `false` — on every path, whatever the stage, start outcome, stage
work outcome and transport availability. -/
theorem run_constructs_runner_once (raw : String) (layout : Layout)
    (stage : Option String) (st : Option Err) (app : App)
    (load : Except Err (List LoadedPlugin)) (wt : Option Err) (sendA : Bool) :
    (run ⟨some raw, Except.ok layout, stage, st, app, load, wt, sendA⟩).runnerCalls
      = [⟨layout, app, false⟩] := by
  cases st <;> cases sendA <;> cases load <;> cases wt <;>
    simp only [run, sendErrorToParent, sendDataToParent] <;>
    repeat' (first | rfl | split)

/-- Claim C10 (implicit): with a present, parsed layout, active stage
`plugin`, an available transport and a throwing start, `run` sends two
messages — first the `error` message carrying the serialized start
failure, then the `success-plugin` message — because the catch around
`appRunner.start()` does not return. -/
theorem run_start_failure_then_plugin_success (raw : String) (layout : Layout)
    (e : Err) (app : App) (load : Except Err (List LoadedPlugin)) (wt : Option Err) :
    (run ⟨some raw, Except.ok layout, some "plugin", some e, app, load, wt, true⟩).sent
      = [Message.error (serializeError e), Message.successPlugin app.plugins] :=
  rfl

/-- A world for examining C1: the layout is present and parses, the active
stage is `plugin`, the transport is available, and `appRunner.start()`
throws. -/
def c1World : World :=
  ⟨some "{}", Except.ok ⟨"layout"⟩, some "plugin",
    some ⟨"Error", "start failed", "stack"⟩,
    ⟨[⟨"nexus-plugin-prisma"⟩], "schema", "settings"⟩, Except.ok [], none, true⟩

/-- Claim C1 counterexample: in `c1World` the start throws, yet it is not
the case that one `error` and no success message is sent — a
`success-plugin` message is sent in the same invocation, because the catch
around `appRunner.start()` does not return. -/
theorem run_c1_counterexample :
    c1World.startThrows.isSome = true ∧
      ¬ ((run c1World).sent.countP Message.isError = 1 ∧
         (run c1World).sent.countP Message.isSuccessPlugin = 0 ∧
         (run c1World).sent.countP Message.isSuccessTypegen = 0) := by
  decide

/-- Claim C1 as amended: when the layout is present and parses, the
transport is available and `appRunner.start()` throws, the first message
sent is the `error` message carrying the serialized start failure — but it
is not terminal: stage logic still runs afterwards and may send a further
message, whatever the active stage. -/
theorem run_start_failure_reported_first (raw : String) (layout : Layout)
    (e : Err) (stage : Option String) (app : App)
    (load : Except Err (List LoadedPlugin)) (wt : Option Err) :
    (run ⟨some raw, Except.ok layout, stage, some e, app, load, wt, true⟩).sent.head?
      = some (Message.error (serializeError e)) := by
  cases load <;> cases wt <;>
    simp [run, sendErrorToParent, sendDataToParent] <;>
    repeat' (first | rfl | split)

/-- A world for examining C2: identical conditions to `c1World` built
independently — plugin stage, available transport, throwing start. -/
def c2World : World :=
  ⟨some "{}", Except.ok ⟨"layout"⟩, some "plugin",
    some ⟨"Error", "boot error", "stack"⟩,
    ⟨[⟨"plugin-a"⟩, ⟨"plugin-b"⟩], "schema", "settings"⟩, Except.ok [], none, true⟩

/-- Claim C2 counterexample: in `c2World` two messages are sent in one
invocation (the start-failure `error`, then `success-plugin`), so at most
one message per invocation is false. -/
theorem run_c2_counterexample : ¬ ((run c2World).sent.length ≤ 1) := by
  decide

/-- Claim C2 as amended: at most one message is sent per invocation
provided `appRunner.start()` does not throw; when it throws, the
start-failure `error` and a stage outcome may both be sent. -/
theorem run_at_most_one_message_when_start_succeeds (le : Option String)
    (pl : Except Err Layout) (stage : Option String) (app : App)
    (load : Except Err (List LoadedPlugin)) (wt : Option Err) (sendA : Bool) :
    (run ⟨le, pl, stage, none, app, load, wt, sendA⟩).sent.length ≤ 1 := by
  cases le <;> [skip; cases pl] <;> cases sendA <;> cases load <;> cases wt <;>
    simp [run, sendErrorToParent, sendDataToParent] <;>
    repeat' (first | decide | split | simp_all)

/-- Claim C6: with a present, parsed layout, active stage `typegen`, a
non-throwing start and an available transport, if the stage work throws —
plugin loading via `importAndLoadRuntimePlugins`, or else `writeArtifacts`
— then exactly one `error` message is sent, its serialized error's message
field equals the thrown failure's message, and no `success-typegen`
message is sent. -/
theorem run_typegen_stage_failure_reports_error (raw : String) (layout : Layout)
    (app : App) (load : Except Err (List LoadedPlugin)) (wt : Option Err)
    (e : Err) (h : stageWorkThrows load wt = some e) :
    (run ⟨some raw, Except.ok layout, some "typegen", none, app, load, wt, true⟩).sent
        = [Message.error (serializeError e)] ∧
      (serializeError e).message = e.message := by
  refine ⟨?_, rfl⟩
  cases load with
  | error e2 =>
    simp only [stageWorkThrows, Option.some.injEq] at h
    subst h
    rfl
  | ok loaded =>
    simp only [stageWorkThrows] at h
    subst h
    rfl

/-- Claim C6 witness: a concrete typegen invocation whose plugin loading
throws, instantiating `run_typegen_stage_failure_reports_error`. -/
theorem run_typegen_stage_failure_reports_error_witness :
    stageWorkThrows (Except.error ⟨"Error", "load failed", ""⟩) none
        = some ⟨"Error", "load failed", ""⟩ ∧
      ((run ⟨some "{}", Except.ok ⟨"layout"⟩, some "typegen", none,
          ⟨[], "schema", "settings"⟩, Except.error ⟨"Error", "load failed", ""⟩,
          none, true⟩).sent
          = [Message.error (serializeError ⟨"Error", "load failed", ""⟩)] ∧
        (serializeError ⟨"Error", "load failed", ""⟩).message = "load failed") :=
  ⟨rfl, run_typegen_stage_failure_reports_error "{}" ⟨"layout"⟩
    ⟨[], "schema", "settings"⟩ (Except.error ⟨"Error", "load failed", ""⟩)
    none ⟨"Error", "load failed", ""⟩ rfl⟩

/-- A world for examining C7: the layout is present and parses, no stage is
configured, the transport is available, and `appRunner.start()` throws. -/
def c7World : World :=
  ⟨some "{}", Except.ok ⟨"layout"⟩, none,
    some ⟨"Error", "start crashed", "stack"⟩,
    ⟨[], "schema", "settings"⟩, Except.ok [], none, true⟩

/-- Claim C7 counterexample: in `c7World` the active stage is neither
`plugin` nor `typegen`, yet the invocation is not silent — the
start-failure `error` message is sent. -/
theorem run_c7_counterexample :
    isReflectionStage c7World "plugin" = false ∧
      isReflectionStage c7World "typegen" = false ∧
      (run c7World).sent ≠ [] := by
  decide

/-- Claim C7 as amended: when the active stage is neither `plugin` nor
`typegen` and `appRunner.start()` does not throw, zero messages are sent
over the channel — the invocation is silent. -/
theorem run_no_matching_stage_silent (le : Option String)
    (pl : Except Err Layout) (stage : Option String) (app : App)
    (load : Except Err (List LoadedPlugin)) (wt : Option Err) (sendA : Bool)
    (hp : stage ≠ some "plugin") (ht : stage ≠ some "typegen") :
    (run ⟨le, pl, stage, none, app, load, wt, sendA⟩).sent = [] := by
  have h1 : (stage == some "plugin") = false := beq_eq_false_iff_ne.mpr hp
  have h2 : (stage == some "typegen") = false := beq_eq_false_iff_ne.mpr ht
  cases le <;> [skip; cases pl] <;>
    simp [run, isReflectionStage, h1, h2]

/-- Claim C7 witness: a concrete invocation with a stage value outside the
closed set and a successful start, instantiating
`run_no_matching_stage_silent`. -/
theorem run_no_matching_stage_silent_witness :
    (some "bogus" : Option String) ≠ some "plugin" ∧
      (some "bogus" : Option String) ≠ some "typegen" ∧
      (run ⟨some "{}", Except.ok ⟨"layout"⟩, some "bogus", none,
          ⟨[], "schema", "settings"⟩, Except.ok [], none, true⟩).sent = [] :=
  ⟨by decide, by decide,
    run_no_matching_stage_silent (some "{}") (Except.ok ⟨"layout"⟩)
      (some "bogus") ⟨[], "schema", "settings"⟩ (Except.ok []) none true
      (by decide) (by decide)⟩

end Nexus
